import Mathlib

/-!
Verification of the chatboty lambda backend (gateway, auth, validators,
intent router, logger) against its natural-language specification.

Python strings are modelled as `List Char` (Python `str` is a sequence of
Unicode code points; Lean `Char` is a Unicode scalar value).  Python dicts
that carry JSON data are modelled by the mutual inductive `Json` /
`JsonList` / `JsonObj` below; `Json.jnull` models Python `None` (which is
what `json.loads` produces for JSON `null` and what `dict.get` returns for
an absent key).  JSON numbers are modelled as integers; no claim involves
floating point.  Logging side effects are not modelled (only the record
contents, where a claim is about them).
-/

namespace Chatboty

abbrev Str := List Char

mutual

/-- JSON-like values as produced by `json.loads` / passed around as Python
dicts.  Objects are association lists in insertion order; Python dict keys
are unique, and lookup returns the first match. -/
inductive Json where
  | jnull
  | jbool (b : Bool)
  | jnum (n : Int)
  | jstr (s : Str)
  | jarr (items : JsonList)
  | jobj (fields : JsonObj)

inductive JsonList where
  | nil
  | cons (hd : Json) (tl : JsonList)

inductive JsonObj where
  | nil
  | cons (key : Str) (val : Json) (tl : JsonObj)

end

deriving instance DecidableEq for Json, JsonList, JsonObj

/-- Python `d.get(k)` on a dict: first binding with the given key. -/
def JsonObj.find? : JsonObj → Str → Option Json
  | .nil, _ => none
  | .cons k v tl, key => if k = key then some v else tl.find? key

/-- Python `k in d` on a dict. -/
def JsonObj.hasKey (o : JsonObj) (key : Str) : Bool :=
  (o.find? key).isSome

/-- Python `d.get(k)` where an absent key yields `None` (= `jnull`). -/
def JsonObj.getJ (o : JsonObj) (key : Str) : Json :=
  (o.find? key).getD .jnull

/-- Python `d.get(k, default)`. -/
def JsonObj.getD (o : JsonObj) (key : Str) (default : Json) : Json :=
  (o.find? key).getD default

/-- Python truthiness of a JSON-like value (`bool(x)`). -/
def pyTruthy : Json → Bool
  | .jnull => false
  | .jbool b => b
  | .jnum n => n != 0
  | .jstr s => !s.isEmpty
  | .jarr .nil => false
  | .jarr _ => true
  | .jobj .nil => false
  | .jobj _ => true

/-- Characters removed by Python `str.strip()` (ASCII whitespace; the
Unicode space classes do not occur in any input a claim is about). -/
def isPyWhitespace (c : Char) : Bool :=
  c = ' ' || c = '\t' || c = '\n' || c = '\x0d' || c = '\x0b' || c = '\x0c'

/-- Python `s.strip()`. -/
def pyStrip (s : Str) : Str :=
  ((s.dropWhile isPyWhitespace).reverse.dropWhile isPyWhitespace).reverse

/-! ## UTF-8 encoding (models Python `str.encode('utf-8')`)

The byte sequence of a code point, written with `/` and `%` (equal to the
usual shift/mask formulation on `Nat`). -/

def utf8EncodeChar (c : Nat) : List Nat :=
  if c < 128 then [c]
  else if c < 2048 then [192 + c / 64, 128 + c % 64]
  else if c < 65536 then [224 + c / 4096, 128 + c / 64 % 64, 128 + c % 64]
  else [240 + c / 262144, 128 + c / 4096 % 64, 128 + c / 64 % 64, 128 + c % 64]

def utf8Encode (s : Str) : List Nat :=
  s.flatMap (fun c => utf8EncodeChar c.toNat)

/-- `len(body.encode('utf-8'))`. -/
def utf8Length (s : Str) : Nat :=
  (utf8Encode s).length

/-! ## auth.py -/

/-- The accumulator loop of `hmac.compare_digest` over two equal-length
byte sequences: OR together the XOR of every byte pair, with no early
exit; the pair lists are traversed in full regardless of content. -/
def digestAcc (ps : List (Nat × Nat)) : Nat :=
  ps.foldl (fun acc p => acc ||| (p.1 ^^^ p.2)) 0

/-- Number of byte-comparison steps the loop performs. -/
def digestSteps (xs ys : List Nat) : Nat :=
  (xs.zip ys).length

/-- `hmac.compare_digest` on byte sequences: `False` on unequal lengths,
otherwise the content-independent accumulator loop. -/
def compareDigest (xs ys : List Nat) : Bool :=
  if xs.length ≠ ys.length then false
  else digestAcc (xs.zip ys) == 0

/-- `auth.constant_time_compare`: length check, then HMAC comparison of
the UTF-8 encodings. -/
def constant_time_compare (a b : Str) : Bool :=
  if a.length ≠ b.length then false
  else compareDigest (utf8Encode a) (utf8Encode b)

/-- `auth.validate_api_key`: falsy key fails; empty configured key list
fails closed; otherwise any configured key may match.  The configured
keys are the result of `Config.get_api_keys()`, passed explicitly. -/
def validate_api_key (validKeys : List Str) (apiKey : Option Str) : Bool :=
  match apiKey with
  | none => false
  | some k =>
    if k.isEmpty then false
    else if validKeys.isEmpty then false
    else validKeys.any (fun vk => constant_time_compare k vk)

/-- Python `a or b` on two `str | None` values (`None` and `''` are falsy). -/
def pyOrStr (a b : Option Str) : Option Str :=
  match a with
  | some s => if s.isEmpty then b else some s
  | none => b

/-- Request headers: an association list (Python dict) of name/value. -/
abbrev Headers := List (Str × Str)

/-- Python `headers.get(name)` (exact, case-sensitive dict lookup). -/
def headerGet (headers : Headers) (name : Str) : Option Str :=
  (headers.find? (fun p => p.1 = name)).map Prod.snd

/-- `auth.extract_api_key`: looks up exactly the spellings `'x-api-key'`
and `'X-Api-Key'`, returns the stripped value when truthy, else `None`. -/
def extract_api_key (headers : Headers) : Option Str :=
  let apiKey := pyOrStr (headerGet headers "x-api-key".data)
                        (headerGet headers "X-Api-Key".data)
  match apiKey with
  | some k => if k.isEmpty then none else some (pyStrip k)
  | none => none

/-- `auth.authenticate_request`. -/
def authenticate_request (validKeys : List Str) (headers : Headers) :
    Bool × Option Str :=
  if validate_api_key validKeys (extract_api_key headers) then
    (true, none)
  else
    (false, some "Unauthorized: Invalid or missing API key".data)

/-! ## Python scalar rendering (f-strings, `int()`) -/

/-- Decimal digits of an integer, as `str(n)` renders it. -/
def intChars (n : Int) : Str :=
  (toString n).data

def natChars (n : Nat) : Str :=
  (toString n).data

/-- Python's single-quote character, kept out of string literals. -/
def pyQuoteChar : Char := Char.ofNat 39

mutual

/-- Python `repr` of a JSON-like value (as f-strings render containers).
String repr is rendered without escaping: no input any claim is about
contains quotes or control characters. -/
def pyRepr : Json → Str
  | .jnull => "None".data
  | .jbool true => "True".data
  | .jbool false => "False".data
  | .jnum n => intChars n
  | .jstr s => pyQuoteChar :: (s ++ [pyQuoteChar])
  | .jarr items => '[' :: (pyReprList items ++ [']'])
  | .jobj fields => '\x7b' :: (pyReprObj fields ++ ['\x7d'])

def pyReprList : JsonList → Str
  | .nil => []
  | .cons h .nil => pyRepr h
  | .cons h tl => pyRepr h ++ ", ".data ++ pyReprList tl

def pyReprObj : JsonObj → Str
  | .nil => []
  | .cons k v .nil =>
    (pyQuoteChar :: (k ++ [pyQuoteChar])) ++ ": ".data ++ pyRepr v
  | .cons k v tl =>
    (pyQuoteChar :: (k ++ [pyQuoteChar])) ++ ": ".data ++ pyRepr v ++
      ", ".data ++ pyReprObj tl

end

/-- Python `str(x)` as used inside f-strings. -/
def pyStr : Json → Str
  | .jstr s => s
  | j => pyRepr j

/-- Python `int(s)` on a string: optional surrounding whitespace, optional
sign, then a non-empty digit run (digit-group underscores are not
modelled; no claim input contains them). -/
def pyIntOfStr (s : Str) : Option Int :=
  let t := pyStrip s
  let core : Option (Bool × Str) :=
    match t with
    | '-' :: rest => some (true, rest)
    | '+' :: rest => some (false, rest)
    | _ => some (false, t)
  match core with
  | some (neg, ds) =>
    if ds.isEmpty || !ds.all (fun c => c.isDigit) then none
    else
      let n : Nat := ds.foldl (fun acc c => acc * 10 + (c.toNat - 48)) 0
      some (if neg then -(n : Int) else (n : Int))
  | none => none

/-- Python `int(x)` on a JSON-like value: ints pass through, bools become
0/1, numeric strings parse, everything else raises (`none`). -/
def pyInt : Json → Option Int
  | .jnum n => some n
  | .jbool b => some (if b then 1 else 0)
  | .jstr s => pyIntOfStr s
  | _ => none

/-! ## config.py -/

/-- Configuration as loaded from the environment.  `apiKeys` models the
result of `Config.get_api_keys()` (comma-splitting of the raw variable is
not needed by any claim). -/
structure Config where
  dbHost : Str
  dbName : Str
  dbUser : Str
  dbPassword : Str
  apiKeys : List Str
  maxPayloadSize : Nat
  maxQueryLimit : Int

/-- `Config.validate()` succeeds (raises no `ValueError`): all database
fields are non-empty and the parsed API key list is non-empty. -/
def Config.validateOk (cfg : Config) : Bool :=
  !cfg.dbHost.isEmpty && !cfg.dbName.isEmpty && !cfg.dbUser.isEmpty &&
  !cfg.dbPassword.isEmpty && !cfg.apiKeys.isEmpty

/-! ## validators.py -/

/-- `ALLOWED_INTENTS`, in the order written in the source (a Python set
literal; only membership is observable, plus the sorted rendering in the
unknown-intent message). -/
def ALLOWED_INTENTS : List Str :=
  [ "get_access_logs".data
  , "get_error_logs".data
  , "store_access_log".data
  , "store_error_log".data
  , "get_traffic_summary".data
  , "get_security_threats".data
  , "get_performance_metrics".data
  , "get_anomalies".data
  , "query_logs".data ]

/-- Python `<` on strings: lexicographic on code points. -/
def strLtB : Str → Str → Bool
  | [], [] => false
  | [], _ :: _ => true
  | _ :: _, [] => false
  | a :: as, b :: bs => if a < b then true else if b < a then false else strLtB as bs

def strLeB (a b : Str) : Bool := !(strLtB b a)

/-- `sorted(ALLOWED_INTENTS)`. -/
def sortedAllowedIntents : List Str :=
  ALLOWED_INTENTS.mergeSort strLeB

/-- The rendering of a sorted list of strings inside an f-string. -/
def pyReprStrList (xs : List Str) : Str :=
  '[' :: (List.intercalate ", ".data
    (xs.map (fun s => pyQuoteChar :: (s ++ [pyQuoteChar]))) ++ [']'])

/-- `validators.validate_intent`.  The argument is whatever
`data.get('intent')` produced (`jnull` models Python `None`). -/
def validate_intent (intent : Json) : Bool × Option Str :=
  if !pyTruthy intent then
    (false, some "Intent is required".data)
  else
    match intent with
    | .jstr s =>
      if ALLOWED_INTENTS.contains s then (true, none)
      else
        (false, some ("Unknown intent: ".data ++ s ++
          ". Allowed intents: ".data ++ pyReprStrList sortedAllowedIntents))
    | j =>
      (false, some ("Unknown intent: ".data ++ pyStr j ++
        ". Allowed intents: ".data ++ pyReprStrList sortedAllowedIntents))

/-- `validators.validate_payload_size`: UTF-8 byte length against the
configured maximum; the rejection message names both sizes. -/
def validate_payload_size (maxSize : Nat) (body : Str) : Bool × Option Str :=
  let size := utf8Length body
  if size > maxSize then
    (false, some ("Payload too large: ".data ++ natChars size ++
      " bytes (max: ".data ++ natChars maxSize ++ " bytes)".data))
  else
    (true, none)

/-- `validators.validate_limit`. -/
def validate_limit (maxLimit : Int) (limit : Json) :
    Bool × Option Int × Option Str :=
  match limit with
  | .jnull => (true, some 100, none)
  | v =>
    match pyInt v with
    | none => (false, none, some "Limit must be an integer".data)
    | some n =>
      if n < 1 then (false, none, some "Limit must be positive".data)
      else if n > maxLimit then
        (false, none,
         some ("Limit exceeds maximum: ".data ++ intChars maxLimit))
      else (true, some n, none)

/-- `validators.validate_timestamp`. -/
def validate_timestamp (timestamp : Json) : Bool × Option Str × Option Str :=
  match timestamp with
  | .jnull => (true, none, none)
  | .jstr s =>
    if s.length < 10 then
      (false, none, some "Invalid timestamp format".data)
    else (true, some s, none)
  | _ => (false, none, some "Timestamp must be a string".data)

/-- The per-part loop of `validate_ip_address`: first parse failure raises
`ValueError` (numbers message), first out-of-range part rejects. -/
def checkIpParts : List Str → Option Str
  | [] => none
  | p :: rest =>
    match pyIntOfStr p with
    | none => some "IP address must contain numbers".data
    | some n =>
      if !(0 ≤ n ∧ n ≤ 255) then some "Invalid IP address range".data
      else checkIpParts rest

/-- `validators.validate_ip_address`. -/
def validate_ip_address (ip : Json) : Bool × Option Str × Option Str :=
  match ip with
  | .jnull => (true, none, none)
  | .jstr s =>
    let parts := s.splitOn '.'
    if parts.length ≠ 4 then
      (false, none, some "Invalid IP address format".data)
    else
      match checkIpParts parts with
      | some err => (false, none, some err)
      | none => (true, some s, none)
  | _ => (false, none, some "IP address must be a string".data)

/-- `validators.validate_status_code`. -/
def validate_status_code (statusCode : Json) : Bool × Option Int × Option Str :=
  match statusCode with
  | .jnull => (true, none, none)
  | v =>
    match pyInt v with
    | none => (false, none, some "Status code must be an integer".data)
    | some c =>
      if !(100 ≤ c ∧ c ≤ 599) then
        (false, none, some "Status code must be between 100 and 599".data)
      else (true, some c, none)

/-- The required-field loop of the store intents: first missing field, in
list order. -/
def firstMissing : List Str → JsonObj → Option Str
  | [], _ => none
  | f :: rest, params =>
    if params.hasKey f then firstMissing rest params
    else some ("Missing required field: ".data ++ f)

/-- The failure extractor used in `validate_intent_params`: `none` when
the field validator succeeded, the error message otherwise (every
validator that fails carries a message). -/
def vtErr (j : Json) : Option Str :=
  let r := validate_timestamp j
  if r.1 then none else r.2.2

def vipErr (j : Json) : Option Str :=
  let r := validate_ip_address j
  if r.1 then none else r.2.2

def vscErr (j : Json) : Option Str :=
  let r := validate_status_code j
  if r.1 then none else r.2.2

def vlimErr (maxLimit : Int) (j : Json) : Option Str :=
  let r := validate_limit maxLimit j
  if r.1 then none else r.2.2

/-- One `if field in params: validate(params[field])` step. -/
def fieldCheck (params : JsonObj) (field : Str) (chk : Json → Option Str) :
    Option Str :=
  if params.hasKey field then chk (params.getJ field) else none

/-- `validators.validate_intent_params`: common `limit` check first, then
the intent-specific checks, short-circuiting at the first failure. -/
def validate_intent_params (maxLimit : Int) (intent : Str) (params : JsonObj) :
    Bool × Option Str :=
  let err :=
    fieldCheck params "limit".data (vlimErr maxLimit) <|>
    (if intent = "get_access_logs".data then
      fieldCheck params "ip_address".data vipErr <|>
      fieldCheck params "status_code".data vscErr <|>
      fieldCheck params "start_time".data vtErr <|>
      fieldCheck params "end_time".data vtErr
    else if intent = "store_access_log".data then
      firstMissing ["timestamp".data, "ip_address".data, "method".data,
        "endpoint".data, "status_code".data] params <|>
      vtErr (params.getJ "timestamp".data) <|>
      vipErr (params.getJ "ip_address".data) <|>
      vscErr (params.getJ "status_code".data)
    else if intent = "store_error_log".data then
      firstMissing ["timestamp".data, "log_level".data, "error_code".data,
        "error_message".data] params <|>
      vtErr (params.getJ "timestamp".data)
    else if intent = "get_traffic_summary".data then
      fieldCheck params "start_time".data vtErr <|>
      fieldCheck params "end_time".data vtErr
    else none)
  match err with
  | some e => (false, some e)
  | none => (true, none)

/-- Outcome of `validators.validate_request`, the Python triple
`(is_valid, data, error)` plus an explicit arm for an uncaught exception
(the gateway's outer handler turns it into a 500). -/
inductive VRes where
  | ok (data : JsonObj)
  | rejected (err : Option Str)
  | exn

/-- `validators.validate_request`: size, parse, intent, params, stopping
at the first failure.  `parse` abstracts `json.loads` (`Except` error is
`str(e)` of the decode error).  A parse result that is not an object makes
`data.get` raise (`exn`); a `params` value that is not an object raises
inside the membership/indexing operations of the parameter checks for
every input any claim exercises, and is modelled as `exn` as well. -/
def validate_request (maxSize : Nat) (maxLimit : Int)
    (parse : Str → Except Str Json) (body : Str) : VRes :=
  match validate_payload_size maxSize body with
  | (false, err) => .rejected err
  | (true, _) =>
    match parse body with
    | .error e => .rejected (some ("Invalid JSON: ".data ++ e))
    | .ok data =>
      match data with
      | .jobj fs =>
        let intentToCheck := fs.getJ "intent".data
        match validate_intent intentToCheck with
        | (false, err) => .rejected err
        | (true, _) =>
          match fs.getD "params".data (.jobj .nil) with
          | .jobj ps =>
            match intentToCheck with
            | .jstr s =>
              match validate_intent_params maxLimit s ps with
              | (false, err) => .rejected err
              | (true, _) => .ok fs
            | _ => .exn
          | _ => .exn
      | _ => .exn

/-! ## intents.py -/

/-- The eight handler functions of `INTENT_HANDLERS`. -/
inductive HandlerId where
  | getAccessLogs
  | getErrorLogs
  | storeAccessLog
  | storeErrorLog
  | getTrafficSummary
  | getSecurityThreats
  | getPerformanceMetrics
  | getAnomalies
deriving DecidableEq

/-- `INTENT_HANDLERS`, in source order. -/
def INTENT_HANDLERS : List (Str × HandlerId) :=
  [ ("get_access_logs".data, .getAccessLogs)
  , ("get_error_logs".data, .getErrorLogs)
  , ("store_access_log".data, .storeAccessLog)
  , ("store_error_log".data, .storeErrorLog)
  , ("get_traffic_summary".data, .getTrafficSummary)
  , ("get_security_threats".data, .getSecurityThreats)
  , ("get_performance_metrics".data, .getPerformanceMetrics)
  , ("get_anomalies".data, .getAnomalies) ]

/-- `INTENT_HANDLERS.get(intent)`: a non-string intent matches no key. -/
def intentHandlersGet : Json → Option HandlerId
  | .jstr s => (INTENT_HANDLERS.find? (fun p => p.1 = s)).map Prod.snd
  | _ => none

def JsonObj.ofList : List (Str × Json) → JsonObj
  | [] => .nil
  | (k, v) :: tl => .cons k v (ofList tl)

/-- The generic failure dict every handler returns from its `except`
branch. -/
def failResult (msg : Str) : JsonObj :=
  JsonObj.ofList [("success".data, .jbool false), ("error".data, .jstr msg)]

/-- `intents.execute_intent`.  `run` abstracts the bodies of the eight
handlers (each delegates to the data store); the defensive branch fires
when the router has no entry for the intent. -/
def execute_intent (run : HandlerId → Json → JsonObj) (intent : Json)
    (params : Json) : JsonObj :=
  match intentHandlersGet intent with
  | none =>
    JsonObj.ofList [("success".data, .jbool false),
      ("error".data, .jstr ("No handler for intent: ".data ++ pyStr intent))]
  | some h => run h params

/-- The bound-parameter tuple of `handle_store_access_log`: required
fields by direct indexing (a missing one raises `KeyError`, modelled as
`none`), optional fields via `.get` whose absence binds Python `None`
(= `jnull`, rendered as SQL NULL by the driver). -/
def storeAccessLogBinds (ps : JsonObj) : Option (List Json) :=
  match ps.find? "timestamp".data, ps.find? "ip_address".data,
        ps.find? "method".data, ps.find? "endpoint".data,
        ps.find? "status_code".data with
  | some ts, some ip, some m, some ep, some sc =>
    some [ts, ip, m, ep, ps.getJ "http_version".data, sc,
      ps.getJ "response_size".data, ps.getJ "response_time_ms".data,
      ps.getJ "user_agent".data, ps.getJ "department".data,
      ps.getJ "user_id".data]
  | _, _, _, _, _ => none

/-- The bound-parameter tuple of `handle_store_error_log`; note
`params.get('severity_score', 5)`: an absent severity binds `5`, every
other optional field binds `None`. -/
def storeErrorLogBinds (ps : JsonObj) : Option (List Json) :=
  match ps.find? "timestamp".data, ps.find? "log_level".data,
        ps.find? "error_code".data, ps.find? "error_message".data with
  | some ts, some ll, some ec, some em =>
    some [ts, ll, ps.getJ "process_id".data, ps.getJ "thread_id".data,
      ps.getJ "client_ip".data, ec, em, ps.getJ "file_path".data,
      ps.getJ "line_number".data, ps.getD "severity_score".data (.jnum 5)]
  | _, _, _, _ => none

/-- `intents.handle_store_access_log`.  `insert` abstracts
`db.execute_insert` (returns the new row id, `none` when the driver
raises); any exception is caught and mapped to the generic failure. -/
def handle_store_access_log (insert : List Json → Option Int)
    (params : Json) : JsonObj :=
  match params with
  | .jobj ps =>
    match storeAccessLogBinds ps with
    | none => failResult "Failed to store access log".data
    | some binds =>
      match insert binds with
      | none => failResult "Failed to store access log".data
      | some logId =>
        JsonObj.ofList [("success".data, .jbool true),
          ("data".data, .jobj (JsonObj.ofList
            [("id".data, .jnum logId),
             ("message".data, .jstr "Access log stored successfully".data)]))]
  | _ => failResult "Failed to store access log".data

/-- `intents.handle_store_error_log`. -/
def handle_store_error_log (insert : List Json → Option Int)
    (params : Json) : JsonObj :=
  match params with
  | .jobj ps =>
    match storeErrorLogBinds ps with
    | none => failResult "Failed to store error log".data
    | some binds =>
      match insert binds with
      | none => failResult "Failed to store error log".data
      | some logId =>
        JsonObj.ofList [("success".data, .jbool true),
          ("data".data, .jobj (JsonObj.ofList
            [("id".data, .jnum logId),
             ("message".data, .jstr "Error log stored successfully".data)]))]
  | _ => failResult "Failed to store error log".data

/-! ## lambda_function.py -/

/-- `event.get('body', '') or '{}'`: an absent body, a `None` body and an
empty-string body all become the literal `'{}'`. -/
def effectiveBody : Option Str → Str
  | none => "\x7b\x7d".data
  | some s => if s.isEmpty then "\x7b\x7d".data else s

/-- The parts of the API Gateway event the handler reads.  `headers`
models `event.get('headers', {}) or {}` (absent/None become the empty
map); `body = none` covers both an absent body key and an explicit
`None`; `httpMethod` is `event.get('httpMethod', 'POST')`. -/
structure Event where
  headers : Headers
  body : Option Str
  httpMethod : Option Str

/-- The observable response: status code and the body's `error` field
(`none` when the body has no `error` key; `some jnull` when it is
`None`).  The fresh `request_id`, hardening headers and logging calls are
side information no claim is about. -/
structure GwResponse where
  status : Nat
  errorMsg : Option Json
deriving DecidableEq

/-- `lambda_function.lambda_handler`: config check, authentication, HTTP
method check, body validation, execution — in that source order.  `execI`
abstracts `execute_intent` composed with the handlers' data-store calls
(each handler catches its own exceptions and returns a result dict, so
the execution stage always yields a dict). -/
def lambda_handler (cfg : Config) (parse : Str → Except Str Json)
    (execI : Json → Json → JsonObj) (ev : Event) : GwResponse :=
  if !cfg.validateOk then
    ⟨500, some (.jstr "Server configuration error".data)⟩
  else
    let bodyStr := effectiveBody ev.body
    let httpMethod := ev.httpMethod.getD "POST".data
    match authenticate_request cfg.apiKeys ev.headers with
    | (false, authErr) =>
      ⟨401, some (match authErr with | some s => .jstr s | none => .jnull)⟩
    | (true, _) =>
      if httpMethod ≠ "POST".data then
        ⟨405, some (.jstr "Method not allowed. Use POST.".data)⟩
      else
        match validate_request cfg.maxPayloadSize cfg.maxQueryLimit parse
            bodyStr with
        | .rejected err =>
          ⟨400, some (match err with | some s => .jstr s | none => .jnull)⟩
        | .exn => ⟨500, some (.jstr "Internal server error".data)⟩
        | .ok data =>
          let intent := data.getJ "intent".data
          let params := data.getD "params".data (.jobj .nil)
          let result := execI intent params
          let status :=
            if pyTruthy (result.getD "success".data (.jbool false)) then 200
            else 500
          ⟨status, result.find? "error".data⟩

/-! ## logger.py -/

/-- The `sensitive_keys` list of `StructuredLogger._sanitize`. -/
def SENSITIVE_KEYS : List Str :=
  [ "password".data, "api_key".data, "x-api-key".data, "authorization".data
  , "token".data, "secret".data, "credential".data, "db_password".data ]

/-- ASCII lowering (models `str.lower()`; every sensitive-name pattern is
ASCII). -/
def lowerChar (c : Char) : Char :=
  if 65 ≤ c.toNat ∧ c.toNat ≤ 90 then Char.ofNat (c.toNat + 32) else c

def lowerStr (s : Str) : Str := s.map lowerChar

def upperChar (c : Char) : Char :=
  if 97 ≤ c.toNat ∧ c.toNat ≤ 122 then Char.ofNat (c.toNat - 32) else c

def upperStr (s : Str) : Str := s.map upperChar

/-- Python `pat in s` on strings: `pat` occurs as a contiguous substring. -/
def strContains (s pat : Str) : Bool :=
  match s with
  | [] => pat.isEmpty
  | _ :: tl => pat.isPrefixOf s || strContains tl pat

/-- `any(sensitive in key_lower for sensitive in sensitive_keys)`. -/
def isSensitiveKey (key : Str) : Bool :=
  SENSITIVE_KEYS.any (fun sk => strContains (lowerStr key) sk)

def REDACTED : Str := "***REDACTED***".data

def TRUNCATED_SUFFIX : Str := "... [TRUNCATED]".data

mutual

/-- `StructuredLogger._sanitize`: redact sensitive keys at every dict
level, recurse through lists, truncate long strings. -/
def sanitize : Json → Json
  | .jobj fields => .jobj (sanitizeObj fields)
  | .jarr items => .jarr (sanitizeList items)
  | .jstr s =>
    if s.length > 1000 then .jstr (s.take 1000 ++ TRUNCATED_SUFFIX)
    else .jstr s
  | j => j

def sanitizeList : JsonList → JsonList
  | .nil => .nil
  | .cons h tl => .cons (sanitize h) (sanitizeList tl)

def sanitizeObj : JsonObj → JsonObj
  | .nil => .nil
  | .cons k v tl =>
    if isSensitiveKey k then .cons k (.jstr REDACTED) (sanitizeObj tl)
    else .cons k (sanitize v) (sanitizeObj tl)

end

def JsonObj.append : JsonObj → JsonObj → JsonObj
  | .nil, o => o
  | .cons k v tl, o => .cons k v (tl.append o)

/-- The record assembled by `StructuredLogger._log`: fixed fields plus the
sanitized kwargs.  The dict literal gives later (sanitized) entries
precedence on key collision; the record is represented as the
concatenation of all bindings, which is what the redaction theorem
quantifies over. -/
def logRecordFields (ts : Str) (level : Str) (message : Str)
    (kwargs : JsonObj) : JsonObj :=
  (JsonObj.ofList [("timestamp".data, .jstr ts),
    ("level".data, .jstr (upperStr level)),
    ("message".data, .jstr message)]).append (sanitizeObj kwargs)

/-! ## Specification-side predicates and concrete fixtures -/

/-- The four sensitive-name patterns named by the specification's
redaction property (a subset of the source's `sensitive_keys`). -/
def isClaimSensitive (k : Str) : Bool :=
  strContains (lowerStr k) "password".data ||
  strContains (lowerStr k) "api_key".data ||
  strContains (lowerStr k) "token".data ||
  strContains (lowerStr k) "secret".data

mutual

/-- Every binding, at any depth (lists included), whose key matches one of
the specification's four sensitive-name patterns carries exactly the
redaction marker. -/
def redactionOk : Json → Bool
  | .jobj fields => redactionOkObj fields
  | .jarr items => redactionOkList items
  | _ => true

def redactionOkList : JsonList → Bool
  | .nil => true
  | .cons h tl => redactionOk h && redactionOkList tl

def redactionOkObj : JsonObj → Bool
  | .nil => true
  | .cons k v tl =>
    (if isClaimSensitive k then
      (match v with | .jstr s => s == REDACTED | _ => false)
    else redactionOk v) && redactionOkObj tl

end

/-- A valid configuration for concrete instantiations. -/
def cfgW : Config :=
  ⟨"h".data, "n".data, "u".data, "p".data, ["k".data], 1048576, 1000⟩

/-- A parser that recognises only the literal `'{}'` (enough for inputs
whose parse result a hypothesis fixes). -/
def parseW : Str → Except Str Json :=
  fun s => if s = "\x7b\x7d".data then .ok (.jobj .nil) else .error "e".data

/-- An execution stage that always reports a generic failure. -/
def execW : Json → Json → JsonObj :=
  fun _ _ => failResult "x".data

/-- Headers carrying the valid credential of `cfgW`. -/
def authHeadersW : Headers := [("x-api-key".data, "k".data)]

/-- A request envelope whose params carry an oversized limit, with a
parser recognising exactly its body. -/
def limitBodyW : Str := "B".data

def limitJsonW : Json :=
  .jobj (JsonObj.ofList
    [("intent".data, .jstr "get_anomalies".data),
     ("params".data, .jobj (JsonObj.ofList [("limit".data, .jnum 5000)]))])

def parseLimitW : Str → Except Str Json :=
  fun s => if s = limitBodyW then .ok limitJsonW else .error "e".data

/-- A configuration whose payload maximum is 3 bytes. -/
def cfgSmallW : Config :=
  ⟨"h".data, "n".data, "u".data, "p".data, ["k".data], 3, 1000⟩

/-- Store-error-log params with the four required fields and no optional
field (in particular no `severity_score`). -/
def errParamsW : JsonObj :=
  JsonObj.ofList
    [("timestamp".data, .jstr "2024-01-01 00:00:00".data),
     ("log_level".data, .jstr "ERROR".data),
     ("error_code".data, .jstr "E1".data),
     ("error_message".data, .jstr "boom".data)]

/-- Store-access-log params with the five required fields and no optional
field. -/
def accParamsW : JsonObj :=
  JsonObj.ofList
    [("timestamp".data, .jstr "2024-01-01 00:00:00".data),
     ("ip_address".data, .jstr "10.0.0.1".data),
     ("method".data, .jstr "GET".data),
     ("endpoint".data, .jstr "/a".data),
     ("status_code".data, .jnum 200)]

/-- Store-error-log params with mixed optional presence: `process_id` is
present, the other optional fields (including `severity_score`) are
absent. -/
def errParamsMixedW : JsonObj :=
  JsonObj.ofList
    [("timestamp".data, .jstr "2024-01-01 00:00:00".data),
     ("log_level".data, .jstr "ERROR".data),
     ("error_code".data, .jstr "E1".data),
     ("error_message".data, .jstr "boom".data),
     ("process_id".data, .jnum 12)]

/-- Store-access-log params with mixed optional presence: `user_agent` is
present, the other optional fields are absent. -/
def accParamsMixedW : JsonObj :=
  JsonObj.ofList
    [("timestamp".data, .jstr "2024-01-01 00:00:00".data),
     ("ip_address".data, .jstr "10.0.0.1".data),
     ("method".data, .jstr "GET".data),
     ("endpoint".data, .jstr "/a".data),
     ("status_code".data, .jnum 200),
     ("user_agent".data, .jstr "curl".data)]

/-! ## Theorems -/

/-! ### Shared gateway branch lemmas -/

theorem gw_config_invalid (cfg : Config) (parse : Str → Except Str Json)
    (execI : Json → Json → JsonObj) (ev : Event)
    (hcfg : cfg.validateOk = false) :
    lambda_handler cfg parse execI ev =
      ⟨500, some (.jstr "Server configuration error".data)⟩ := by
  simp [lambda_handler, hcfg]

theorem gw_unauthenticated (cfg : Config) (parse : Str → Except Str Json)
    (execI : Json → Json → JsonObj) (ev : Event)
    (hcfg : cfg.validateOk = true)
    (hauth : validate_api_key cfg.apiKeys (extract_api_key ev.headers) = false) :
    lambda_handler cfg parse execI ev =
      ⟨401, some (.jstr "Unauthorized: Invalid or missing API key".data)⟩ := by
  simp [lambda_handler, authenticate_request, hcfg, hauth]

theorem gw_method_not_allowed (cfg : Config) (parse : Str → Except Str Json)
    (execI : Json → Json → JsonObj) (ev : Event)
    (hcfg : cfg.validateOk = true)
    (hauth : validate_api_key cfg.apiKeys (extract_api_key ev.headers) = true)
    (hm : ev.httpMethod.getD "POST".data ≠ "POST".data) :
    lambda_handler cfg parse execI ev =
      ⟨405, some (.jstr "Method not allowed. Use POST.".data)⟩ := by
  simp [lambda_handler, authenticate_request, hcfg, hauth, hm]

theorem gw_validation_rejected (cfg : Config) (parse : Str → Except Str Json)
    (execI : Json → Json → JsonObj) (ev : Event) (err : Option Str)
    (hcfg : cfg.validateOk = true)
    (hauth : validate_api_key cfg.apiKeys (extract_api_key ev.headers) = true)
    (hm : ev.httpMethod.getD "POST".data = "POST".data)
    (hval : validate_request cfg.maxPayloadSize cfg.maxQueryLimit parse
      (effectiveBody ev.body) = .rejected err) :
    lambda_handler cfg parse execI ev =
      ⟨400, some (match err with | some s => .jstr s | none => .jnull)⟩ := by
  simp [lambda_handler, authenticate_request, hcfg, hauth, hm, hval]
  cases err <;> rfl

theorem gw_validation_exn (cfg : Config) (parse : Str → Except Str Json)
    (execI : Json → Json → JsonObj) (ev : Event)
    (hcfg : cfg.validateOk = true)
    (hauth : validate_api_key cfg.apiKeys (extract_api_key ev.headers) = true)
    (hm : ev.httpMethod.getD "POST".data = "POST".data)
    (hval : validate_request cfg.maxPayloadSize cfg.maxQueryLimit parse
      (effectiveBody ev.body) = .exn) :
    lambda_handler cfg parse execI ev =
      ⟨500, some (.jstr "Internal server error".data)⟩ := by
  simp [lambda_handler, authenticate_request, hcfg, hauth, hm, hval]

theorem gw_execution (cfg : Config) (parse : Str → Except Str Json)
    (execI : Json → Json → JsonObj) (ev : Event) (data : JsonObj)
    (hcfg : cfg.validateOk = true)
    (hauth : validate_api_key cfg.apiKeys (extract_api_key ev.headers) = true)
    (hm : ev.httpMethod.getD "POST".data = "POST".data)
    (hval : validate_request cfg.maxPayloadSize cfg.maxQueryLimit parse
      (effectiveBody ev.body) = .ok data) :
    lambda_handler cfg parse execI ev =
      ⟨(if pyTruthy ((execI (data.getJ "intent".data)
            (data.getD "params".data (.jobj .nil))).getD "success".data
            (.jbool false)) then 200 else 500),
        (execI (data.getJ "intent".data)
          (data.getD "params".data (.jobj .nil))).find? "error".data⟩ := by
  simp [lambda_handler, authenticate_request, hcfg, hauth, hm, hval]

/-! ### Shared validator lemmas -/

theorem allowed_nonempty (s : Str) (h : ALLOWED_INTENTS.contains s = true) :
    s ≠ [] := by
  intro hnil
  subst hnil
  exact absurd h (by decide)

theorem validate_limit_exceeds (maxLimit n : Int) (v : Json)
    (hpy : pyInt v = some n) (hmax : 0 ≤ maxLimit) (hgt : maxLimit < n) :
    validate_limit maxLimit v =
      (false, none,
        some ("Limit exceeds maximum: ".data ++ intChars maxLimit)) := by
  cases v with
  | jnull => simp [pyInt] at hpy
  | jbool b =>
    cases b with
    | false => simp [pyInt] at hpy; omega
    | true =>
      simp [pyInt] at hpy
      have hml : maxLimit = 0 := by omega
      subst hml
      rfl
  | jnum m =>
    simp [pyInt] at hpy
    subst hpy
    simp only [validate_limit, pyInt]
    rw [if_neg (by omega), if_pos (by omega)]
  | jstr s =>
    simp only [pyInt] at hpy
    simp only [validate_limit, pyInt, hpy]
    rw [if_neg (by omega), if_pos (by omega)]
  | jarr l => simp [pyInt] at hpy
  | jobj o => simp [pyInt] at hpy

theorem validate_payload_size_ok (maxSize : Nat) (body : Str)
    (h : utf8Length body ≤ maxSize) :
    validate_payload_size maxSize body = (true, none) := by
  simp only [validate_payload_size]
  rw [if_neg (by omega)]

theorem validate_intent_allowed (s : Str)
    (h : ALLOWED_INTENTS.contains s = true) :
    validate_intent (.jstr s) = (true, none) := by
  have hne := allowed_nonempty s h
  simp [validate_intent, pyTruthy, List.isEmpty_iff, hne, h]
  exact List.mem_of_elem_eq_true h

theorem validate_intent_params_limit (maxLimit : Int) (intent : Str)
    (ps : JsonObj) (v : Json) (msg : Str)
    (hlim : ps.find? "limit".data = some v)
    (hv : validate_limit maxLimit v = (false, none, some msg)) :
    validate_intent_params maxLimit intent ps = (false, some msg) := by
  simp [validate_intent_params, fieldCheck, JsonObj.hasKey, JsonObj.getJ,
    hlim, vlimErr, hv]

theorem validate_request_limit_exceeds (maxSize : Nat) (maxLimit n : Int)
    (parse : Str → Except Str Json) (body : Str) (fs ps : JsonObj)
    (intentStr : Str) (v : Json)
    (hsize : utf8Length body ≤ maxSize)
    (hparse : parse body = .ok (.jobj fs))
    (hintent : fs.find? "intent".data = some (.jstr intentStr))
    (hallow : ALLOWED_INTENTS.contains intentStr = true)
    (hparams : fs.find? "params".data = some (.jobj ps))
    (hlimit : ps.find? "limit".data = some v)
    (hpy : pyInt v = some n) (hmax : 0 ≤ maxLimit) (hgt : maxLimit < n) :
    validate_request maxSize maxLimit parse body =
      .rejected (some ("Limit exceeds maximum: ".data ++ intChars maxLimit)) := by
  have h1 := validate_payload_size_ok maxSize body hsize
  have h2 := validate_intent_allowed intentStr hallow
  have h3 := validate_intent_params_limit maxLimit intentStr ps v _ hlimit
    (validate_limit_exceeds maxLimit n v hpy hmax hgt)
  simp [validate_request, h1, hparse, JsonObj.getJ, JsonObj.getD, hintent,
    h2, hparams, h3]

/-- C4, counterexample: a headers map that carries the API key only under
the capitalization `'X-API-KEY'` yields `None` from the extractor, not
the stripped value the claim requires. -/
theorem c4_counterexample :
    extract_api_key [("X-API-KEY".data, "k".data)] = none := rfl

/-- C4, amended: extraction consults exactly the two spellings
`'x-api-key'` and `'X-Api-Key'` (its result depends on nothing else in
the headers map); a non-empty value under `'x-api-key'` is returned
stripped, a non-empty value under `'X-Api-Key'` is returned stripped when
`'x-api-key'` is absent or empty, and a map whose only API-key entry uses
any other capitalization (e.g. `'X-API-KEY'`) yields `None`. -/
theorem c4_amended (headers headers' : Headers) (v : Str) :
    (headerGet headers "x-api-key".data = headerGet headers' "x-api-key".data →
      headerGet headers "X-Api-Key".data = headerGet headers' "X-Api-Key".data →
      extract_api_key headers = extract_api_key headers') ∧
    (headerGet headers "x-api-key".data = some v → v ≠ [] →
      extract_api_key headers = some (pyStrip v)) ∧
    (headerGet headers "x-api-key".data = none →
      headerGet headers "X-Api-Key".data = some v → v ≠ [] →
      extract_api_key headers = some (pyStrip v)) ∧
    (∀ w, extract_api_key [("X-API-KEY".data, w)] = none) := by
  refine ⟨?_, ?_, ?_, ?_⟩
  · intro h1 h2
    simp only [extract_api_key, h1, h2]
  · intro h1 h2
    simp [extract_api_key, pyOrStr, h1, List.isEmpty_iff, h2]
  · intro h1 h2 h3
    simp [extract_api_key, pyOrStr, h1, h2, List.isEmpty_iff, h3]
  · intro w
    simp [extract_api_key, pyOrStr, headerGet, List.find?]

/-- C4 witness: a map with `'x-api-key'` bound to `'  a '` extracts the
stripped value `'a'`. -/
theorem c4_amended_witness :
    headerGet [("x-api-key".data, "  a ".data)] "x-api-key".data =
      some "  a ".data ∧
    extract_api_key [("x-api-key".data, "  a ".data)] = some "a".data := by
  refine ⟨rfl, ?_⟩
  have h := (c4_amended [("x-api-key".data, "  a ".data)] [] "  a ".data).2.1
    rfl (by decide)
  simpa using h

/-- C2, counterexample: `'query_logs'` passes the validator's whitelist
check, yet the router has no handler for it, so the defensive no-handler
branch of `execute_intent` is reachable for a validated intent — the
whitelist is not the eight handled operations. -/
theorem c2_counterexample :
    validate_intent (.jstr "query_logs".data) = (true, none) ∧
    intentHandlersGet (.jstr "query_logs".data) = none ∧
    execute_intent (fun _ _ => JsonObj.nil) (.jstr "query_logs".data)
        (.jobj .nil) =
      JsonObj.ofList [("success".data, .jbool false),
        ("error".data, .jstr "No handler for intent: query_logs".data)] :=
  ⟨rfl, rfl, rfl⟩

/-- C2, amended: the validator's whitelist is exactly the eight intents
the router maps to a handler plus the extra entry `'query_logs'`; every
routed intent passes validation and has a handler, while `'query_logs'`
reaches the defensive rejection of `execute_intent` whatever the handler
bodies do. -/
theorem c2_amended :
    ALLOWED_INTENTS = INTENT_HANDLERS.map Prod.fst ++ ["query_logs".data] ∧
    ((INTENT_HANDLERS.map Prod.fst).all
      (fun s => (validate_intent (.jstr s)).1 &&
        (intentHandlersGet (.jstr s)).isSome)) = true ∧
    (∀ run ps, execute_intent run (.jstr "query_logs".data) ps =
      JsonObj.ofList [("success".data, .jbool false),
        ("error".data, .jstr "No handler for intent: query_logs".data)]) :=
  ⟨rfl, by decide, fun run ps => rfl⟩

/-- C3, counterexample: for a store-error-log request carrying only the
four required fields, the bound-parameter tuple binds `severity_score` to
the integer `5`, not to null — the omitted optional field is not passed
with a null default. -/
theorem c3_counterexample :
    storeErrorLogBinds errParamsW =
      some [.jstr "2024-01-01 00:00:00".data, .jstr "ERROR".data, .jnull,
        .jnull, .jnull, .jstr "E1".data, .jstr "boom".data, .jnull, .jnull,
        .jnum 5] ∧
    (Json.jnum 5 ≠ Json.jnull) := ⟨rfl, by decide⟩

/-- C3, amended: for every validated write request — with any mix of
present and absent optional fields — the bound-parameter tuple carries,
at each optional position, the params value when the field is present and
its default when absent; the default is null for every optional field
except `severity_score` on `store_error_log`, whose default is the
integer `5`; and the operation returns the identifier the data store
assigned.  (`getJ` is `.get(f)`: the value when present, `jnull` when
absent; `getD` is `.get(f, d)`.) -/
theorem c3_amended
    (psA psE : JsonObj) (ts ip m ep sc tsE ll ec em : Json) (idA idE : Int)
    (insA insE : List Json → Option Int)
    (hts : psA.find? "timestamp".data = some ts)
    (hip : psA.find? "ip_address".data = some ip)
    (hm : psA.find? "method".data = some m)
    (hep : psA.find? "endpoint".data = some ep)
    (hsc : psA.find? "status_code".data = some sc)
    (hinsA : insA [ts, ip, m, ep, psA.getJ "http_version".data, sc,
      psA.getJ "response_size".data, psA.getJ "response_time_ms".data,
      psA.getJ "user_agent".data, psA.getJ "department".data,
      psA.getJ "user_id".data] = some idA)
    (htsE : psE.find? "timestamp".data = some tsE)
    (hll : psE.find? "log_level".data = some ll)
    (hec : psE.find? "error_code".data = some ec)
    (hem : psE.find? "error_message".data = some em)
    (hinsE : insE [tsE, ll, psE.getJ "process_id".data,
      psE.getJ "thread_id".data, psE.getJ "client_ip".data, ec, em,
      psE.getJ "file_path".data, psE.getJ "line_number".data,
      psE.getD "severity_score".data (.jnum 5)] = some idE) :
    storeAccessLogBinds psA =
      some [ts, ip, m, ep, psA.getJ "http_version".data, sc,
        psA.getJ "response_size".data, psA.getJ "response_time_ms".data,
        psA.getJ "user_agent".data, psA.getJ "department".data,
        psA.getJ "user_id".data] ∧
    storeErrorLogBinds psE =
      some [tsE, ll, psE.getJ "process_id".data, psE.getJ "thread_id".data,
        psE.getJ "client_ip".data, ec, em, psE.getJ "file_path".data,
        psE.getJ "line_number".data,
        psE.getD "severity_score".data (.jnum 5)] ∧
    (∀ (o : JsonObj) (f : Str), o.find? f = none → o.getJ f = .jnull) ∧
    (∀ (o : JsonObj) (f : Str) (d : Json),
      o.find? f = none → o.getD f d = d) ∧
    (psE.find? "severity_score".data = none →
      psE.getD "severity_score".data (.jnum 5) = .jnum 5) ∧
    handle_store_access_log insA (.jobj psA) =
      JsonObj.ofList [("success".data, .jbool true),
        ("data".data, .jobj (JsonObj.ofList
          [("id".data, .jnum idA),
           ("message".data, .jstr "Access log stored successfully".data)]))] ∧
    handle_store_error_log insE (.jobj psE) =
      JsonObj.ofList [("success".data, .jbool true),
        ("data".data, .jobj (JsonObj.ofList
          [("id".data, .jnum idE),
           ("message".data, .jstr "Error log stored successfully".data)]))] := by
  have hbA : storeAccessLogBinds psA =
      some [ts, ip, m, ep, psA.getJ "http_version".data, sc,
        psA.getJ "response_size".data, psA.getJ "response_time_ms".data,
        psA.getJ "user_agent".data, psA.getJ "department".data,
        psA.getJ "user_id".data] := by
    simp [storeAccessLogBinds, hts, hip, hm, hep, hsc]
  have hbE : storeErrorLogBinds psE =
      some [tsE, ll, psE.getJ "process_id".data, psE.getJ "thread_id".data,
        psE.getJ "client_ip".data, ec, em, psE.getJ "file_path".data,
        psE.getJ "line_number".data,
        psE.getD "severity_score".data (.jnum 5)] := by
    simp [storeErrorLogBinds, htsE, hll, hec, hem]
  refine ⟨hbA, hbE, ?_, ?_, ?_, ?_, ?_⟩
  · intro o f h
    simp [JsonObj.getJ, h]
  · intro o f d h
    simp [JsonObj.getD, h]
  · intro h
    simp [JsonObj.getD, h]
  · simp [handle_store_access_log, hbA, hinsA]
  · simp [handle_store_error_log, hbE, hinsE]

/-- C3 witness: concrete mixed-presence records — `process_id` present on
the error log, `user_agent` present on the access log, every other
optional field absent — bind the present values, null for the absent
fields, `5` for the absent `severity_score`, and return the assigned
ids. -/
theorem c3_amended_witness :
    storeErrorLogBinds errParamsMixedW =
      some [.jstr "2024-01-01 00:00:00".data, .jstr "ERROR".data, .jnum 12,
        .jnull, .jnull, .jstr "E1".data, .jstr "boom".data, .jnull, .jnull,
        .jnum 5] ∧
    handle_store_error_log (fun _ => some 9) (.jobj errParamsMixedW) =
      JsonObj.ofList [("success".data, .jbool true),
        ("data".data, .jobj (JsonObj.ofList
          [("id".data, .jnum 9),
           ("message".data, .jstr "Error log stored successfully".data)]))] ∧
    storeAccessLogBinds accParamsMixedW =
      some [.jstr "2024-01-01 00:00:00".data, .jstr "10.0.0.1".data,
        .jstr "GET".data, .jstr "/a".data, .jnull, .jnum 200, .jnull,
        .jnull, .jstr "curl".data, .jnull, .jnull] ∧
    handle_store_access_log (fun _ => some 7) (.jobj accParamsMixedW) =
      JsonObj.ofList [("success".data, .jbool true),
        ("data".data, .jobj (JsonObj.ofList
          [("id".data, .jnum 7),
           ("message".data, .jstr "Access log stored successfully".data)]))] := by
  have h := c3_amended accParamsMixedW errParamsMixedW
    (.jstr "2024-01-01 00:00:00".data) (.jstr "10.0.0.1".data)
    (.jstr "GET".data) (.jstr "/a".data) (.jnum 200)
    (.jstr "2024-01-01 00:00:00".data) (.jstr "ERROR".data)
    (.jstr "E1".data) (.jstr "boom".data) 7 9
    (fun _ => some 7) (fun _ => some 9)
    rfl rfl rfl rfl rfl rfl rfl rfl rfl rfl rfl
  exact ⟨h.2.1, h.2.2.2.2.2.2, h.1, h.2.2.2.2.2.1⟩

/-- C5: for every request whose params carry a limit whose integer value
exceeds the configured maximum, the parameter validation rejects the call
with the message naming the maximum, and the gateway returns 400 with
that message — the limit is never clamped to the maximum. -/
theorem c5_limit_rejected (cfg : Config) (parse : Str → Except Str Json)
    (execI : Json → Json → JsonObj) (ev : Event) (n : Int) (fs ps : JsonObj)
    (intentStr : Str) (v : Json)
    (hcfg : cfg.validateOk = true)
    (hauth : validate_api_key cfg.apiKeys (extract_api_key ev.headers) = true)
    (hm : ev.httpMethod.getD "POST".data = "POST".data)
    (hsize : utf8Length (effectiveBody ev.body) ≤ cfg.maxPayloadSize)
    (hparse : parse (effectiveBody ev.body) = .ok (.jobj fs))
    (hintent : fs.find? "intent".data = some (.jstr intentStr))
    (hallow : ALLOWED_INTENTS.contains intentStr = true)
    (hparams : fs.find? "params".data = some (.jobj ps))
    (hlimit : ps.find? "limit".data = some v)
    (hpy : pyInt v = some n) (hmaxpos : 0 ≤ cfg.maxQueryLimit)
    (hgt : cfg.maxQueryLimit < n) :
    validate_intent_params cfg.maxQueryLimit intentStr ps =
      (false,
        some ("Limit exceeds maximum: ".data ++ intChars cfg.maxQueryLimit)) ∧
    lambda_handler cfg parse execI ev =
      ⟨400, some (.jstr
        ("Limit exceeds maximum: ".data ++ intChars cfg.maxQueryLimit))⟩ := by
  have hv := validate_limit_exceeds cfg.maxQueryLimit n v hpy hmaxpos hgt
  refine ⟨validate_intent_params_limit cfg.maxQueryLimit intentStr ps v _
    hlimit hv, ?_⟩
  have hval := validate_request_limit_exceeds cfg.maxPayloadSize
    cfg.maxQueryLimit n parse (effectiveBody ev.body) fs ps intentStr v
    hsize hparse hintent hallow hparams hlimit hpy hmaxpos hgt
  simpa using gw_validation_rejected cfg parse execI ev _ hcfg hauth hm hval

/-- C5 witness: `params.limit = 5000` against the configured maximum 1000
is rejected with status 400 and the message naming 1000. -/
theorem c5_limit_rejected_witness :
    pyInt (.jnum 5000) = some 5000 ∧ ((1000 : Int) < 5000) ∧
    lambda_handler cfgW parseLimitW execW
        ⟨authHeadersW, some limitBodyW, none⟩ =
      ⟨400, some (.jstr ("Limit exceeds maximum: ".data ++ intChars 1000))⟩ := by
  refine ⟨rfl, by decide, ?_⟩
  exact (c5_limit_rejected cfgW parseLimitW execW
    ⟨authHeadersW, some limitBodyW, none⟩ 5000 _ _ "get_anomalies".data
    (.jnum 5000) (by decide) (by decide) rfl (by decide) rfl rfl (by decide)
    rfl rfl rfl (by decide) (by decide)).2

/-- C6: a body whose UTF-8 byte length exceeds the configured maximum is
rejected with the message naming the actual and maximum sizes, the
rejection is independent of the JSON parser (no parsing is attempted),
and the gateway returns 400 with that message. -/
theorem c6_payload_too_large (cfg : Config) (parse parse2 : Str → Except Str Json)
    (execI : Json → Json → JsonObj) (ev : Event) (body : Str)
    (hcfg : cfg.validateOk = true)
    (hauth : validate_api_key cfg.apiKeys (extract_api_key ev.headers) = true)
    (hm : ev.httpMethod.getD "POST".data = "POST".data)
    (hbody : ev.body = some body) (hne : body ≠ [])
    (hsize : cfg.maxPayloadSize < utf8Length body) :
    validate_request cfg.maxPayloadSize cfg.maxQueryLimit parse body =
      .rejected (some ("Payload too large: ".data ++
        natChars (utf8Length body) ++ " bytes (max: ".data ++
        natChars cfg.maxPayloadSize ++ " bytes)".data)) ∧
    validate_request cfg.maxPayloadSize cfg.maxQueryLimit parse body =
      validate_request cfg.maxPayloadSize cfg.maxQueryLimit parse2 body ∧
    lambda_handler cfg parse execI ev =
      ⟨400, some (.jstr ("Payload too large: ".data ++
        natChars (utf8Length body) ++ " bytes (max: ".data ++
        natChars cfg.maxPayloadSize ++ " bytes)".data))⟩ := by
  have hrej : ∀ p : Str → Except Str Json,
      validate_request cfg.maxPayloadSize cfg.maxQueryLimit p body =
        .rejected (some ("Payload too large: ".data ++
          natChars (utf8Length body) ++ " bytes (max: ".data ++
          natChars cfg.maxPayloadSize ++ " bytes)".data)) := by
    intro p
    simp only [validate_request, validate_payload_size]
    rw [if_pos hsize]
  have heff : effectiveBody ev.body = body := by
    simp [effectiveBody, hbody, List.isEmpty_iff, hne]
  refine ⟨hrej parse, (hrej parse).trans (hrej parse2).symm, ?_⟩
  have hval : validate_request cfg.maxPayloadSize cfg.maxQueryLimit parse
      (effectiveBody ev.body) =
        .rejected (some ("Payload too large: ".data ++
          natChars (utf8Length body) ++ " bytes (max: ".data ++
          natChars cfg.maxPayloadSize ++ " bytes)".data)) := by
    rw [heff]
    exact hrej parse
  simpa using gw_validation_rejected cfg parse execI ev _ hcfg hauth hm hval

/-- C6 witness: a 6-byte body against a 3-byte maximum yields 400 with
the message naming both sizes. -/
theorem c6_payload_too_large_witness :
    utf8Length "abcdef".data = 6 ∧ cfgSmallW.maxPayloadSize = 3 ∧
    lambda_handler cfgSmallW parseW execW
        ⟨authHeadersW, some "abcdef".data, none⟩ =
      ⟨400, some (.jstr ("Payload too large: ".data ++ natChars 6 ++
        " bytes (max: ".data ++ natChars 3 ++ " bytes)".data))⟩ := by
  refine ⟨rfl, rfl, ?_⟩
  exact (c6_payload_too_large cfgSmallW parseW parseW execW
    ⟨authHeadersW, some "abcdef".data, none⟩ "abcdef".data (by decide)
    (by decide) rfl rfl (by decide) (by decide)).2.2

/-- C7: when no credential can be extracted from the headers,
authentication fails identically for every configured credential set
(the set is never consulted) and the gateway answers 401 with exactly
`'Unauthorized: Invalid or missing API key'`; and with an empty
configured credential set, validation fails closed for every presented
key. -/
theorem c7_auth_failure (cfg : Config) (parse : Str → Except Str Json)
    (execI : Json → Json → JsonObj) (ev : Event) (keys : List Str)
    (k : Option Str)
    (hcfg : cfg.validateOk = true)
    (hextract : extract_api_key ev.headers = none) :
    validate_api_key keys none = false ∧
    authenticate_request keys ev.headers =
      (false, some "Unauthorized: Invalid or missing API key".data) ∧
    lambda_handler cfg parse execI ev =
      ⟨401, some (.jstr "Unauthorized: Invalid or missing API key".data)⟩ ∧
    validate_api_key [] k = false := by
  refine ⟨rfl, ?_, ?_, ?_⟩
  · simp [authenticate_request, hextract, validate_api_key]
  · exact gw_unauthenticated cfg parse execI ev hcfg
      (by rw [hextract]; rfl)
  · cases k with
    | none => rfl
    | some s => simp [validate_api_key]

/-- C7 witness: a call with no credential header is answered 401 with the
exact message, whatever keys are configured. -/
theorem c7_auth_failure_witness :
    extract_api_key [("Content-Type".data, "application/json".data)] = none ∧
    lambda_handler cfgW parseW execW
        ⟨[("Content-Type".data, "application/json".data)], none, none⟩ =
      ⟨401, some (.jstr "Unauthorized: Invalid or missing API key".data)⟩ ∧
    validate_api_key [] (some "q".data) = false := by
  have h := c7_auth_failure cfgW parseW execW
    ⟨[("Content-Type".data, "application/json".data)], none, none⟩
    ["z".data] (some "q".data) (by decide) rfl
  exact ⟨rfl, h.2.2.1, h.2.2.2⟩

/-- C10: for an authenticated POST call whose body is absent, `None` or
empty, the gateway substitutes `'{}'` and validation rejects with
`'Intent is required'` and status 400 — no JSON parse error and no
unhandled exception. -/
theorem c10_empty_body (cfg : Config) (parse : Str → Except Str Json)
    (execI : Json → Json → JsonObj) (ev : Event)
    (hcfg : cfg.validateOk = true)
    (hauth : validate_api_key cfg.apiKeys (extract_api_key ev.headers) = true)
    (hm : ev.httpMethod.getD "POST".data = "POST".data)
    (hbody : ev.body = none ∨ ev.body = some [])
    (hparse : parse "\x7b\x7d".data = .ok (.jobj .nil))
    (hmax : 2 ≤ cfg.maxPayloadSize) :
    lambda_handler cfg parse execI ev =
      ⟨400, some (.jstr "Intent is required".data)⟩ := by
  have heff : effectiveBody ev.body = "\x7b\x7d".data := by
    rcases hbody with h | h <;> simp [effectiveBody, h]
  have hsize : utf8Length "\x7b\x7d".data ≤ cfg.maxPayloadSize := by
    have : utf8Length "\x7b\x7d".data = 2 := rfl
    omega
  have hval : validate_request cfg.maxPayloadSize cfg.maxQueryLimit parse
      "\x7b\x7d".data = .rejected (some "Intent is required".data) := by
    simp [validate_request, validate_payload_size_ok _ _ hsize, hparse,
      JsonObj.getJ, JsonObj.find?, validate_intent, pyTruthy]
  rw [← heff] at hval
  simpa using gw_validation_rejected cfg parse execI ev _ hcfg hauth hm hval

/-- C10 witness: an authenticated POST with absent body yields 400 and
`'Intent is required'`. -/
theorem c10_empty_body_witness :
    lambda_handler cfgW parseW execW ⟨authHeadersW, none, none⟩ =
      ⟨400, some (.jstr "Intent is required".data)⟩ :=
  c10_empty_body cfgW parseW execW ⟨authHeadersW, none, none⟩ (by decide)
    (by decide) rfl (Or.inl rfl) rfl (by decide)

/-- C1, counterexample: a GET call with no credential is answered 401,
not the 405 the claimed ordering (method check before authentication)
requires — the gateway authenticates first. -/
theorem c1_counterexample :
    lambda_handler cfgW parseW execW ⟨[], some "x".data, some "GET".data⟩ =
      ⟨401, some (.jstr "Unauthorized: Invalid or missing API key".data)⟩ ∧
    (401 : Nat) ≠ 405 := by
  constructor
  · exact gw_unauthenticated cfgW parseW execW
      ⟨[], some "x".data, some "GET".data⟩ (by decide) rfl
  · decide

/-- C1, amended: the per-call state machine is terminal at the first
applicable state in the order ConfigInvalid, Unauthenticated,
MethodNotAllowed, ValidationRejected, ExecutionFailed/Success — i.e. the
credential is checked before the HTTP method, so a non-POST call with a
missing or invalid credential yields 401, and 405 is reached only by an
authenticated non-POST call. -/
theorem c1_amended (cfg : Config) (parse : Str → Except Str Json)
    (execI : Json → Json → JsonObj) (ev : Event) :
    (cfg.validateOk = false →
      lambda_handler cfg parse execI ev =
        ⟨500, some (.jstr "Server configuration error".data)⟩) ∧
    (cfg.validateOk = true →
      validate_api_key cfg.apiKeys (extract_api_key ev.headers) = false →
      lambda_handler cfg parse execI ev =
        ⟨401, some (.jstr "Unauthorized: Invalid or missing API key".data)⟩) ∧
    (cfg.validateOk = true →
      validate_api_key cfg.apiKeys (extract_api_key ev.headers) = true →
      ev.httpMethod.getD "POST".data ≠ "POST".data →
      lambda_handler cfg parse execI ev =
        ⟨405, some (.jstr "Method not allowed. Use POST.".data)⟩) ∧
    (cfg.validateOk = true →
      validate_api_key cfg.apiKeys (extract_api_key ev.headers) = true →
      ev.httpMethod.getD "POST".data = "POST".data →
      ∀ err, validate_request cfg.maxPayloadSize cfg.maxQueryLimit parse
          (effectiveBody ev.body) = .rejected err →
        lambda_handler cfg parse execI ev =
          ⟨400, some (match err with | some s => .jstr s | none => .jnull)⟩) ∧
    (cfg.validateOk = true →
      validate_api_key cfg.apiKeys (extract_api_key ev.headers) = true →
      ev.httpMethod.getD "POST".data = "POST".data →
      validate_request cfg.maxPayloadSize cfg.maxQueryLimit parse
          (effectiveBody ev.body) = .exn →
        lambda_handler cfg parse execI ev =
          ⟨500, some (.jstr "Internal server error".data)⟩) ∧
    (cfg.validateOk = true →
      validate_api_key cfg.apiKeys (extract_api_key ev.headers) = true →
      ev.httpMethod.getD "POST".data = "POST".data →
      ∀ data, validate_request cfg.maxPayloadSize cfg.maxQueryLimit parse
          (effectiveBody ev.body) = .ok data →
        lambda_handler cfg parse execI ev =
          ⟨(if pyTruthy ((execI (data.getJ "intent".data)
                (data.getD "params".data (.jobj .nil))).getD "success".data
                (.jbool false)) then 200 else 500),
            (execI (data.getJ "intent".data)
              (data.getD "params".data (.jobj .nil))).find? "error".data⟩) :=
  ⟨fun h => gw_config_invalid cfg parse execI ev h,
   fun h1 h2 => gw_unauthenticated cfg parse execI ev h1 h2,
   fun h1 h2 h3 => gw_method_not_allowed cfg parse execI ev h1 h2 h3,
   fun h1 h2 h3 err h4 => by
     have h := gw_validation_rejected cfg parse execI ev err h1 h2 h3 h4
     cases err <;> simpa using h,
   fun h1 h2 h3 h4 => gw_validation_exn cfg parse execI ev h1 h2 h3 h4,
   fun h1 h2 h3 data h4 =>
     gw_execution cfg parse execI ev data h1 h2 h3 h4⟩

/-- C1 witness: the Unauthenticated state precedes MethodNotAllowed — a
GET with a wrong credential gets 401, and a GET with the right credential
gets 405. -/
theorem c1_amended_witness :
    lambda_handler cfgW parseW execW
        ⟨[("x-api-key".data, "wrong".data)], none, some "GET".data⟩ =
      ⟨401, some (.jstr "Unauthorized: Invalid or missing API key".data)⟩ ∧
    lambda_handler cfgW parseW execW ⟨authHeadersW, none, some "GET".data⟩ =
      ⟨405, some (.jstr "Method not allowed. Use POST.".data)⟩ :=
  ⟨(c1_amended cfgW parseW execW
      ⟨[("x-api-key".data, "wrong".data)], none, some "GET".data⟩).2.1
      (by decide) (by decide),
   (c1_amended cfgW parseW execW
      ⟨authHeadersW, none, some "GET".data⟩).2.2.1
      (by decide) (by decide) (by decide)⟩

/-- Each of the specification's four sensitive-name patterns is among the
source's `sensitive_keys`, so a key matching one of the four is redacted
by `_sanitize`. -/
theorem claimSensitive_isSensitive (k : Str) (h : isClaimSensitive k = true) :
    isSensitiveKey k = true := by
  simp only [isClaimSensitive, Bool.or_eq_true] at h
  simp only [isSensitiveKey, SENSITIVE_KEYS, List.any_cons, List.any_nil,
    Bool.or_eq_true]
  tauto

mutual

theorem redactionOk_sanitize : ∀ j : Json, redactionOk (sanitize j) = true
  | .jnull => rfl
  | .jbool _ => rfl
  | .jnum _ => rfl
  | .jstr s => by unfold sanitize; split <;> rfl
  | .jarr items => redactionOk_sanitizeList items
  | .jobj fields => redactionOk_sanitizeObj fields

theorem redactionOk_sanitizeList :
    ∀ l : JsonList, redactionOkList (sanitizeList l) = true
  | .nil => rfl
  | .cons h tl => by
    simp only [sanitizeList, redactionOkList, Bool.and_eq_true]
    exact ⟨redactionOk_sanitize h, redactionOk_sanitizeList tl⟩

theorem redactionOk_sanitizeObj :
    ∀ o : JsonObj, redactionOkObj (sanitizeObj o) = true
  | .nil => rfl
  | .cons k v tl => by
    by_cases hk : isSensitiveKey k = true
    · simp only [sanitizeObj, hk, if_true, redactionOkObj, Bool.and_eq_true]
      refine ⟨?_, redactionOk_sanitizeObj tl⟩
      by_cases hc : isClaimSensitive k = true
      · simp [hc]
      · simp [hc, redactionOk]
    · have hc : isClaimSensitive k = false := by
        cases h' : isClaimSensitive k
        · rfl
        · exact absurd (claimSensitive_isSensitive k h') hk
      simp only [sanitizeObj, hk, if_false, redactionOkObj, hc,
        Bool.and_eq_true]
      exact ⟨redactionOk_sanitize v, redactionOk_sanitizeObj tl⟩

end

theorem redactionOkObj_append :
    ∀ a b : JsonObj,
      redactionOkObj (a.append b) = (redactionOkObj a && redactionOkObj b)
  | .nil, b => rfl
  | .cons k v tl, b => by
    simp only [JsonObj.append, redactionOkObj, redactionOkObj_append tl b,
      Bool.and_assoc]

/-- C8: in every record the logger emits, every key whose lowercased name
contains `password`, `api_key`, `token` or `secret` — at any nesting
depth, lists included — carries exactly the fixed redaction marker in
place of its original value. -/
theorem c8_sensitive_redacted (ts level msg : Str) (kwargs : JsonObj)
    (j : Json) :
    redactionOk (sanitize j) = true ∧
    redactionOkObj (logRecordFields ts level msg kwargs) = true := by
  refine ⟨redactionOk_sanitize j, ?_⟩
  simp only [logRecordFields, redactionOkObj_append, Bool.and_eq_true]
  constructor
  · simp [JsonObj.ofList, redactionOkObj, redactionOk,
      show isClaimSensitive "timestamp".data = false from rfl,
      show isClaimSensitive "level".data = false from rfl,
      show isClaimSensitive "message".data = false from rfl]
  · exact redactionOk_sanitizeObj kwargs

/-! ### Constant-time comparison (C9) -/

theorem char_toNat_lt (c : Char) : c.toNat < 1114112 := by
  rcases c.valid with h | ⟨_, h2⟩
  · have h' : c.val.toNat < 55296 := h
    have he : Char.toNat c = c.val.toNat := rfl
    omega
  · have h' : c.val.toNat < 1114112 := h2
    have he : Char.toNat c = c.val.toNat := rfl
    omega

theorem char_toNat_inj (c d : Char) (h : c.toNat = d.toNat) : c = d :=
  Char.ext (UInt32.ext h)

theorem utf8EncodeChar_ne_nil (c : Nat) : utf8EncodeChar c ≠ [] := by
  unfold utf8EncodeChar
  split_ifs <;> simp

/-- UTF-8 is a prefix code on valid code points: equal encodings followed
by arbitrary tails force equal code points and equal tails. -/
theorem utf8EncodeChar_prefix_inj {c d : Nat} {r1 r2 : List Nat}
    (hc : c < 1114112) (hd : d < 1114112)
    (h : utf8EncodeChar c ++ r1 = utf8EncodeChar d ++ r2) :
    c = d ∧ r1 = r2 := by
  unfold utf8EncodeChar at h
  split_ifs at h <;>
    simp only [List.cons_append, List.nil_append, List.cons.injEq] at h <;>
    exact ⟨by omega, by first | tauto | (exfalso; omega)⟩

theorem utf8Encode_inj : ∀ (a b : List Char), utf8Encode a = utf8Encode b →
    a = b
  | [], [], _ => rfl
  | [], c :: b, h => by
    exact absurd h.symm (by
      simp [utf8Encode, List.append_eq_nil, utf8EncodeChar_ne_nil])
  | c :: a, [], h => by
    exact absurd h (by
      simp [utf8Encode, List.append_eq_nil, utf8EncodeChar_ne_nil])
  | c :: a, d :: b, h => by
    simp only [utf8Encode, List.flatMap_cons] at h
    obtain ⟨hcd, hrest⟩ :=
      utf8EncodeChar_prefix_inj (char_toNat_lt c) (char_toNat_lt d) h
    rw [char_toNat_inj c d hcd, utf8Encode_inj a b hrest]

theorem nat_lor_eq_zero_iff (a b : Nat) : a ||| b = 0 ↔ a = 0 ∧ b = 0 := by
  constructor
  · intro h
    constructor
    · refine Nat.zero_of_testBit_eq_false (fun i => ?_)
      have hb := congrArg (fun x => Nat.testBit x i) h
      simp [Nat.testBit_lor] at hb
      exact hb.1
    · refine Nat.zero_of_testBit_eq_false (fun i => ?_)
      have hb := congrArg (fun x => Nat.testBit x i) h
      simp [Nat.testBit_lor] at hb
      exact hb.2
  · rintro ⟨rfl, rfl⟩
    rfl

/-- The accumulator loop is zero exactly when every byte pair agrees; it
inspects every pair with no early exit. -/
theorem digestFold_eq_zero : ∀ (ps : List (Nat × Nat)) (acc : Nat),
    (ps.foldl (fun a p => a ||| (p.1 ^^^ p.2)) acc = 0 ↔
      acc = 0 ∧ ∀ p ∈ ps, p.1 = p.2)
  | [], acc => by simp
  | p :: ps, acc => by
    simp only [List.foldl_cons, digestFold_eq_zero ps, nat_lor_eq_zero_iff,
      Nat.xor_eq_zero, List.mem_cons, List.forall_mem_cons]
    aesop

theorem digestAcc_eq_zero (ps : List (Nat × Nat)) :
    digestAcc ps = 0 ↔ ∀ p ∈ ps, p.1 = p.2 := by
  simp [digestAcc, digestFold_eq_zero]

theorem zip_forall_eq : ∀ (xs ys : List Nat), xs.length = ys.length →
    ((∀ p ∈ xs.zip ys, p.1 = p.2) ↔ xs = ys)
  | [], [], _ => by simp
  | [], _ :: _, h => by simp at h
  | _ :: _, [], h => by simp at h
  | x :: xs, y :: ys, h => by
    have ih := zip_forall_eq xs ys (by simpa using h)
    constructor
    · intro hp
      have hx : x = y := hp (x, y) (by simp [List.zip_cons_cons])
      have hrest : xs = ys := ih.mp
        (fun p hmem => hp p (by simp [List.zip_cons_cons, hmem]))
      rw [hx, hrest]
    · intro he
      injection he with h1 h2
      subst h1
      subst h2
      intro p hp
      rcases List.mem_cons.mp (by simpa [List.zip_cons_cons] using hp)
          with hh | hh
      · rw [hh]
      · exact (ih.mpr rfl) p hh

theorem compareDigest_eq_iff (xs ys : List Nat) :
    compareDigest xs ys = true ↔ xs = ys := by
  by_cases hlen : xs.length = ys.length
  · simp only [compareDigest, hlen, ne_eq, not_true_eq_false, if_false,
      beq_iff_eq, digestAcc_eq_zero]
    exact zip_forall_eq xs ys hlen
  · simp only [compareDigest, ne_eq, hlen, not_false_eq_true, if_true]
    constructor
    · intro h
      exact absurd h (by simp)
    · intro h
      exact absurd (congrArg List.length h) hlen

/-- C9: the credential comparison returns true exactly on equal strings,
its byte loop performs a number of steps determined by the input lengths
alone — for all contents — and it branches only on length (the length
guard), never on content. -/
theorem c9_constant_time (a b : Str) (xs ys : List Nat) :
    (constant_time_compare a b = true ↔ a = b) ∧
    digestSteps xs ys = min xs.length ys.length := by
  constructor
  · by_cases hlen : a.length = b.length
    · simp only [constant_time_compare, hlen, ne_eq, not_true_eq_false,
        if_false, compareDigest_eq_iff]
      constructor
      · exact utf8Encode_inj a b
      · intro h
        rw [h]
    · simp only [constant_time_compare, ne_eq, hlen, not_false_eq_true,
        if_true]
      constructor
      · intro h
        exact absurd h (by simp)
      · intro h
        exact absurd (congrArg List.length h) hlen
  · simp [digestSteps, List.length_zip]

end Chatboty
